import Mathlib

/-!
Verification of the per-service admission controller ("circuit breaker")
of this repository, together with the component-logger registry in
grpclog/component.go.

The counter component itself (StartRequest / EndRequest / UpdateCounter and
the registry) ships in this repository only through its test file
(xds/internal/client/client_requests_counter_test.go); its implementation
file is not among the sources, so the counter is modelled from the spec.
The grpclog component logger is embedded directly from
grpclog/component.go.
-/

namespace CircuitBreaking

/-- Outcome of StartRequest: success or a CircuitOpenError rejection. -/
inductive StartResult where
  | ok
  | circuitOpen
deriving DecidableEq, Repr

/-- Outcome of EndRequest: success or an InvariantViolation error. -/
inductive EndResult where
  | ok
  | invariantViolation
deriving DecidableEq, Repr

/-- Modelled from the spec: the implementation file declaring
`ServiceRequestsCounter` is missing from the sources (only its test is
present). Per spec section 3, a counter holds a service name, an optional
non-negative bound (`none` means enforcement disabled), and a
`currentRequests` count. `currentRequests` is carried as an integer so that
its non-negativity is a provable invariant rather than a typing artifact. -/
structure ServiceRequestsCounter where
  ServiceName : String
  bound : Option Nat
  currentRequests : Int
deriving DecidableEq, Repr

/-- Modelled from the spec: `UpdateCounter(newBound)` atomically replaces
`bound` as a whole; `none` disables enforcement, `some V` enables it at
threshold V (including V = 0). It never inspects `currentRequests`. -/
def ServiceRequestsCounter.UpdateCounter (c : ServiceRequestsCounter)
    (newBound : Option Nat) : ServiceRequestsCounter :=
  { c with bound := newBound }

/-- Modelled from the spec: `StartRequest` reads `bound` once; if disabled it
increments `currentRequests` and succeeds unconditionally; if enabled at V it
admits (incrementing by one) exactly when `current + 1 <= V`, and otherwise
fails with CircuitOpenError without mutating state. The optimistic
compare-and-swap retry loop of the spec linearizes each call to a single
atomic decision, which is what this function computes. -/
def ServiceRequestsCounter.StartRequest (c : ServiceRequestsCounter) :
    StartResult × ServiceRequestsCounter :=
  match c.bound with
  | none => (.ok, { c with currentRequests := c.currentRequests + 1 })
  | some V =>
      if c.currentRequests + 1 ≤ (V : Int) then
        (.ok, { c with currentRequests := c.currentRequests + 1 })
      else
        (.circuitOpen, c)

/-- Modelled from the spec: `EndRequest` atomically decrements
`currentRequests`; if the decrement would take the value below zero it fails
with InvariantViolation and leaves the value unchanged. -/
def ServiceRequestsCounter.EndRequest (c : ServiceRequestsCounter) :
    EndResult × ServiceRequestsCounter :=
  if c.currentRequests - 1 < 0 then
    (.invariantViolation, c)
  else
    (.ok, { c with currentRequests := c.currentRequests - 1 })

/-- Modelled from the spec: a freshly created counter has enforcement
disabled and no in-flight requests. -/
def freshCounter (name : String) : ServiceRequestsCounter :=
  ⟨name, none, 0⟩

/-- One linearized operation on a counter. Per spec section 5 every
operation completes at a single atomic linearization point, so a concurrent
execution is a sequence of these operations in some interleaving order. -/
inductive Op where
  | start
  | finish
  | update (newBound : Option Nat)
deriving DecidableEq, Repr

/-- Run a list of linearized operations, tallying how many `start`
operations succeeded and how many failed with CircuitOpenError, and
returning the final counter state. -/
def execTally (c : ServiceRequestsCounter) :
    List Op → Nat × Nat × ServiceRequestsCounter
  | [] => (0, 0, c)
  | Op.start :: rest =>
      let r := c.StartRequest
      let t := execTally r.2 rest
      match r.1 with
      | .ok => (t.1 + 1, t.2.1, t.2.2)
      | .circuitOpen => (t.1, t.2.1 + 1, t.2.2)
  | Op.finish :: rest => execTally (c.EndRequest).2 rest
  | Op.update nb :: rest => execTally (c.UpdateCounter nb) rest

/-- Modelled from the spec: the process-wide registry maps a service name to
its shared counter. Reference sharing is modelled by keying every
observation through the map: `Get` returns the entry (creating a fresh
disabled counter on a miss), and a mutation through one reference is written
back to the entry that every other reference reads. -/
structure CounterRegistry where
  services : List (String × ServiceRequestsCounter)
deriving DecidableEq, Repr

/-- Look a service name up in the registry backing list. -/
def lookupEntry (l : List (String × ServiceRequestsCounter)) (name : String) :
    Option ServiceRequestsCounter :=
  match l with
  | [] => none
  | p :: rest => if p.1 = name then some p.2 else lookupEntry rest name

/-- Replace the entry stored under a service name. -/
def updateEntry (l : List (String × ServiceRequestsCounter)) (name : String)
    (c : ServiceRequestsCounter) : List (String × ServiceRequestsCounter) :=
  l.map fun p => if p.1 = name then (name, c) else p

/-- Modelled from the spec: `Get(name)` returns the existing entry when one
exists, and otherwise creates a new counter with enforcement disabled and no
in-flight requests, inserts it, and returns it. -/
def CounterRegistry.Get (reg : CounterRegistry) (name : String) :
    ServiceRequestsCounter × CounterRegistry :=
  match lookupEntry reg.services name with
  | some c => (c, reg)
  | none => (freshCounter name, ⟨(name, freshCounter name) :: reg.services⟩)

/-- Modelled from the spec: a StartRequest issued through the shared
reference obtained for `name`: the admission decision runs on the registry
entry and its post-state is what every holder of a reference to that entry
observes afterwards. -/
def CounterRegistry.startRequest (reg : CounterRegistry) (name : String) :
    StartResult × CounterRegistry :=
  let g := reg.Get name
  let r := g.1.StartRequest
  (r.1, ⟨updateEntry g.2.services name r.2⟩)

end CircuitBreaking

namespace Grpclog

/-- The GRPC_GO_LOG_LEVEL sentinel (math.MinInt32) marking a setting as
unspecified, from grpclog/component.go. -/
def sentinel : Int := -(2 ^ 31)

/-- Log level constant for info, from grpclog/component.go. -/
def levelInfo : Int := 0

/-- Log level constant for warnings. -/
def levelWarning : Int := 1

/-- Log level constant for errors. -/
def levelError : Int := 2

/-- componentData records the settings for a component
(grpclog/component.go). -/
structure ComponentData where
  name : String
  verbosity : Int
  level : Int
deriving DecidableEq, Repr

/-- apply applies the parameter componentData to the receiver; sentinel
values in the parameter are not applied (grpclog/component.go, apply). -/
def ComponentData.apply (c applyData : ComponentData) : ComponentData :=
  let c1 := if applyData.verbosity ≠ sentinel then
      { c with verbosity := applyData.verbosity } else c
  if applyData.level ≠ sentinel then { c1 with level := applyData.level } else c1

/-- The package-level mutable maps of grpclog/component.go: the settings
parsed from the environment variable (exact names and wildcard name
stems), and the cache of already-created components. Go map iteration
order over the wildcard settings is unspecified; the model fixes a list
order, which the claims do not depend on. -/
structure LogState where
  environmentVars : List (String × ComponentData)
  prefixVars : List (String × ComponentData)
  cache : List (String × ComponentData)
deriving DecidableEq, Repr

/-- Look a component name up in a settings or cache list. -/
def lookupVar (l : List (String × ComponentData)) (name : String) :
    Option ComponentData :=
  match l with
  | [] => none
  | p :: rest => if p.1 = name then some p.2 else lookupVar rest name

/-- Component (grpclog/component.go): if a component with the name already
exists in the cache, return it; otherwise build one from the defaults
(sentinel verbosity, info level), apply the wildcard settings whose stem the
name starts with, then apply the exact-name settings, cache it, return it. -/
def Component (componentName : String) (st : LogState) :
    ComponentData × LogState :=
  match lookupVar st.cache componentName with
  | some cData => (cData, st)
  | none =>
      let c0 : ComponentData := ⟨componentName, sentinel, levelInfo⟩
      let c1 := st.prefixVars.foldl
        (fun acc pd => if acc.name.startsWith pd.1 then acc.apply pd.2 else acc) c0
      let c2 := match lookupVar st.environmentVars componentName with
        | some vData => c1.apply vData
        | none => c1
      (c2, { st with cache := (componentName, c2) :: st.cache })

/-- InfoDepth (grpclog/component.go): emits the arguments, tagged with the
bracketed component name, unless the component level is above info. The
emission forwarded to the process logger is modelled as the returned
depth-and-arguments pair; none models a suppressed log. -/
def ComponentData.InfoDepth (c : ComponentData) (depth : Int)
    (args : List String) : Option (Int × List String) :=
  if c.level > levelInfo then none
  else some (depth, ("[" ++ c.name ++ "]") :: args)

/-- WarningDepth (grpclog/component.go): as InfoDepth, gated on the warning
level. -/
def ComponentData.WarningDepth (c : ComponentData) (depth : Int)
    (args : List String) : Option (Int × List String) :=
  if c.level > levelWarning then none
  else some (depth, ("[" ++ c.name ++ "]") :: args)

/-- ErrorDepth (grpclog/component.go): always emits the tagged arguments,
with no level check. -/
def ComponentData.ErrorDepth (c : ComponentData) (depth : Int)
    (args : List String) : Option (Int × List String) :=
  some (depth, ("[" ++ c.name ++ "]") :: args)

/-- FatalDepth (grpclog/component.go): always emits the tagged arguments,
with no level check. -/
def ComponentData.FatalDepth (c : ComponentData) (depth : Int)
    (args : List String) : Option (Int × List String) :=
  some (depth, ("[" ++ c.name ++ "]") :: args)

end Grpclog

namespace CircuitBreaking

/-- The counter state reached after a `start` operation does not depend on
whether that operation succeeded: it is the post-state of `StartRequest`. -/
lemma execTally_start_state (c : ServiceRequestsCounter) (rest : List Op) :
    (execTally c (Op.start :: rest)).2.2 = (execTally (c.StartRequest).2 rest).2.2 := by
  simp only [execTally]
  split <;> rfl

/-- StartRequest never drives the count negative. -/
lemma StartRequest_nonneg (c : ServiceRequestsCounter)
    (h : 0 ≤ c.currentRequests) : 0 ≤ (c.StartRequest).2.currentRequests := by
  unfold ServiceRequestsCounter.StartRequest
  rcases c.bound with _ | V
  · simpa using by omega
  · dsimp only
    split
    · simpa using by omega
    · simpa using h

/-- EndRequest never drives the count negative. -/
lemma EndRequest_nonneg (c : ServiceRequestsCounter)
    (h : 0 ≤ c.currentRequests) : 0 ≤ (c.EndRequest).2.currentRequests := by
  unfold ServiceRequestsCounter.EndRequest
  split
  · simpa using h
  · simp only
    omega

/-- Running any operation sequence from a state with a non-negative count
ends in a state with a non-negative count. -/
lemma execTally_nonneg (ops : List Op) :
    ∀ c : ServiceRequestsCounter, 0 ≤ c.currentRequests →
      0 ≤ (execTally c ops).2.2.currentRequests := by
  induction ops with
  | nil => intro c h; simpa [execTally] using h
  | cons op rest ih =>
      intro c h
      cases op with
      | start =>
          rw [execTally_start_state]
          exact ih _ (StartRequest_nonneg c h)
      | finish =>
          exact ih _ (EndRequest_nonneg c h)
      | update nb =>
          exact ih _ (by simpa [ServiceRequestsCounter.UpdateCounter] using h)

/-- Characterization of a run of n StartRequest operations on an enabled
counter holding k in-flight requests, k ≤ B: exactly min n (B − k) of them
succeed, the rest fail, and the final count is k plus the successes. -/
lemma execTally_start_replicate (name : String) (B k n : Nat) (hk : k ≤ B) :
    execTally ⟨name, some B, (k : Int)⟩ (List.replicate n Op.start) =
      (min n (B - k), n - min n (B - k),
        ⟨name, some B, ((k + min n (B - k) : Nat) : Int)⟩) := by
  induction n generalizing k with
  | zero => simp [execTally]
  | succ n ih =>
      rw [List.replicate_succ]
      by_cases hkB : k + 1 ≤ B
      · have hc : ((k : Int) + 1 ≤ (B : Int)) := by exact_mod_cast hkB
        have h1 : ServiceRequestsCounter.StartRequest ⟨name, some B, (k : Int)⟩ =
            (StartResult.ok, ⟨name, some B, ((k + 1 : Nat) : Int)⟩) := by
          simp only [ServiceRequestsCounter.StartRequest, if_pos hc]
          push_cast
          rfl
        simp only [execTally, h1]
        rw [ih (k + 1) hkB]
        simp only [Prod.mk.injEq, ServiceRequestsCounter.mk.injEq, Nat.cast_inj,
          true_and]
        omega
      · have hc : ¬((k : Int) + 1 ≤ (B : Int)) := by exact_mod_cast hkB
        have h1 : ServiceRequestsCounter.StartRequest ⟨name, some B, (k : Int)⟩ =
            (StartResult.circuitOpen, ⟨name, some B, (k : Int)⟩) := by
          simp only [ServiceRequestsCounter.StartRequest, if_neg hc]
        simp only [execTally, h1]
        rw [ih k hk]
        simp only [Prod.mk.injEq, ServiceRequestsCounter.mk.injEq, Nat.cast_inj,
          true_and]
        omega

/-- A list that is a permutation of a replicate list equals it. -/
lemma perm_replicate_eq {α : Type} {l : List α} {n : Nat} {a : α}
    (h : l.Perm (List.replicate n a)) : l = List.replicate n a := by
  have hlen : l.length = n := by
    have := h.length_eq
    simpa using this
  subst hlen
  apply List.eq_replicate_length.mpr
  intro b hb
  exact List.eq_of_mem_replicate (h.mem_iff.mp hb)

/-- A run of n StartRequest operations on a counter with enforcement
disabled: every one of them succeeds and the count grows by n. -/
lemma execTally_start_replicate_disabled (n : Nat) :
    ∀ c : ServiceRequestsCounter, c.bound = none →
      execTally c (List.replicate n Op.start) =
        (n, 0, { c with currentRequests := c.currentRequests + (n : Int) }) := by
  induction n with
  | zero => intro c _; simp [execTally]
  | succ n ih =>
      intro c hb
      rw [List.replicate_succ]
      have h1 : c.StartRequest =
          (StartResult.ok, { c with currentRequests := c.currentRequests + 1 }) := by
        unfold ServiceRequestsCounter.StartRequest
        rw [hb]
      simp only [execTally, h1]
      rw [ih { c with currentRequests := c.currentRequests + 1 } hb]
      simp only [Prod.mk.injEq, ServiceRequestsCounter.mk.injEq, true_and]
      push_cast
      ring

/-- When the name is present, Get returns the stored counter unchanged. -/
lemma Get_of_lookup (reg : CounterRegistry) (name : String)
    (c : ServiceRequestsCounter) (h : lookupEntry reg.services name = some c) :
    reg.Get name = (c, reg) := by
  unfold CounterRegistry.Get
  rw [h]

/-- After a Get, the returned counter is the one stored under the name. -/
lemma lookupEntry_Get (reg : CounterRegistry) (name : String) :
    lookupEntry (reg.Get name).2.services name = some (reg.Get name).1 := by
  unfold CounterRegistry.Get
  cases h : lookupEntry reg.services name with
  | some c => simpa using h
  | none => simp [lookupEntry]

/-- Looking up the updated name returns the new counter when the name was
present, and nothing otherwise. -/
lemma lookupEntry_updateEntry (l : List (String × ServiceRequestsCounter))
    (name : String) (c : ServiceRequestsCounter) :
    lookupEntry (updateEntry l name c) name =
      (lookupEntry l name).map fun _ => c := by
  induction l with
  | nil => rfl
  | cons p rest ih =>
      by_cases hp : p.1 = name
      · simp [updateEntry, lookupEntry, hp]
      · simp [updateEntry, lookupEntry, hp] at ih ⊢
        exact ih

/-- Claim C1: for every bound B ≥ 0 and every N concurrent StartRequest
calls on a freshly created counter with enforcement enabled at B, exactly
min(N, B) of the calls succeed and max(0, N − B) fail with CircuitOpenError,
regardless of the interleaving or scheduling of the calls. Each call
linearizes to one atomic `Op.start` step (spec section 5), so a concurrent
schedule is any permutation of N such steps; in Nat arithmetic `n - B` is
max(0, n − B). -/
theorem c1_concurrent_starts_min_bound (name : String) (B n : Nat)
    (l : List Op) (hperm : l.Perm (List.replicate n Op.start)) :
    (execTally ((freshCounter name).UpdateCounter (some B)) l).1 = min n B ∧
    (execTally ((freshCounter name).UpdateCounter (some B)) l).2.1 = n - B := by
  rw [perm_replicate_eq hperm]
  have hstate : (freshCounter name).UpdateCounter (some B) =
      ⟨name, some B, ((0 : Nat) : Int)⟩ := rfl
  rw [hstate, execTally_start_replicate name B 0 n (Nat.zero_le B)]
  constructor
  · simp
  · simp
    omega

/-- Witness for C1 at B = 2, N = 3. -/
theorem c1_concurrent_starts_min_bound_witness :
    ([Op.start, Op.start, Op.start] : List Op).Perm (List.replicate 3 Op.start) ∧
    ((execTally ((freshCounter "s").UpdateCounter (some 2))
        [Op.start, Op.start, Op.start]).1 = min 3 2 ∧
      (execTally ((freshCounter "s").UpdateCounter (some 2))
        [Op.start, Op.start, Op.start]).2.1 = 3 - 2) :=
  ⟨List.Perm.refl _,
    c1_concurrent_starts_min_bound "s" 2 3 _ (List.Perm.refl _)⟩

/-- Claim C2: with enforcement enabled at V, StartRequest succeeds and
increments the count by one exactly when currentRequests + 1 ≤ V at the
decision point; otherwise it returns CircuitOpenError and leaves the state
unchanged; with V = 0 every StartRequest on a valid (non-negative) state
fails. -/
theorem c2_start_enabled_iff (c : ServiceRequestsCounter) (V : Nat)
    (hb : c.bound = some V) :
    ((c.StartRequest).1 = StartResult.ok ↔ c.currentRequests + 1 ≤ (V : Int)) ∧
    ((c.StartRequest).1 = StartResult.ok →
      (c.StartRequest).2 = { c with currentRequests := c.currentRequests + 1 }) ∧
    ((c.StartRequest).1 = StartResult.circuitOpen → (c.StartRequest).2 = c) ∧
    (V = 0 → 0 ≤ c.currentRequests →
      (c.StartRequest).1 = StartResult.circuitOpen) := by
  by_cases h : c.currentRequests + 1 ≤ (V : Int)
  · have h1 : c.StartRequest =
        (StartResult.ok, { c with currentRequests := c.currentRequests + 1 }) := by
      simp only [ServiceRequestsCounter.StartRequest, hb, if_pos h]
    rw [h1]
    refine ⟨by simp [h], fun _ => rfl, by simp, ?_⟩
    intro hV hpos
    rw [hV] at h
    simp at h
    omega
  · have h1 : c.StartRequest = (StartResult.circuitOpen, c) := by
      simp only [ServiceRequestsCounter.StartRequest, hb, if_neg h]
    rw [h1]
    exact ⟨by simp [h], by simp, fun _ => rfl, fun _ _ => rfl⟩

/-- Witness for C2 on the counter with bound 2 and one in-flight request. -/
theorem c2_start_enabled_iff_witness :
    (ServiceRequestsCounter.mk "s" (some 2) 1).bound = some 2 ∧
    (((ServiceRequestsCounter.mk "s" (some 2) 1).StartRequest).1 =
        StartResult.ok ↔
      (ServiceRequestsCounter.mk "s" (some 2) 1).currentRequests + 1 ≤
        ((2 : Nat) : Int)) ∧
    (((ServiceRequestsCounter.mk "s" (some 2) 1).StartRequest).1 =
        StartResult.ok →
      ((ServiceRequestsCounter.mk "s" (some 2) 1).StartRequest).2 =
        { ServiceRequestsCounter.mk "s" (some 2) 1 with
            currentRequests :=
              (ServiceRequestsCounter.mk "s" (some 2) 1).currentRequests + 1 }) ∧
    (((ServiceRequestsCounter.mk "s" (some 2) 1).StartRequest).1 =
        StartResult.circuitOpen →
      ((ServiceRequestsCounter.mk "s" (some 2) 1).StartRequest).2 =
        ServiceRequestsCounter.mk "s" (some 2) 1) ∧
    (2 = 0 → 0 ≤ (ServiceRequestsCounter.mk "s" (some 2) 1).currentRequests →
      ((ServiceRequestsCounter.mk "s" (some 2) 1).StartRequest).1 =
        StartResult.circuitOpen) :=
  ⟨rfl, c2_start_enabled_iff (ServiceRequestsCounter.mk "s" (some 2) 1) 2 rfl⟩

/-- Claim C3: with enforcement disabled, every StartRequest succeeds and
increments the count by one, from any state; a run of any N such calls
produces N successes and zero CircuitOpenError failures. -/
theorem c3_disabled_all_succeed (c : ServiceRequestsCounter) (n : Nat)
    (hb : c.bound = none) :
    c.StartRequest =
      (StartResult.ok, { c with currentRequests := c.currentRequests + 1 }) ∧
    execTally c (List.replicate n Op.start) =
      (n, 0, { c with currentRequests := c.currentRequests + (n : Int) }) := by
  constructor
  · unfold ServiceRequestsCounter.StartRequest
    rw [hb]
  · exact execTally_start_replicate_disabled n c hb

/-- Witness for C3 on a disabled counter with five in-flight requests. -/
theorem c3_disabled_all_succeed_witness :
    (ServiceRequestsCounter.mk "s" none 5).bound = none ∧
    ((ServiceRequestsCounter.mk "s" none 5).StartRequest =
      (StartResult.ok,
        { ServiceRequestsCounter.mk "s" none 5 with
            currentRequests :=
              (ServiceRequestsCounter.mk "s" none 5).currentRequests + 1 }) ∧
    execTally (ServiceRequestsCounter.mk "s" none 5)
        (List.replicate 4 Op.start) =
      (4, 0,
        { ServiceRequestsCounter.mk "s" none 5 with
            currentRequests :=
              (ServiceRequestsCounter.mk "s" none 5).currentRequests +
                ((4 : Nat) : Int) })) :=
  ⟨rfl, c3_disabled_all_succeed (ServiceRequestsCounter.mk "s" none 5) 4 rfl⟩

/-- Claim C4: EndRequest decrements the count by one when it is positive;
when the decrement would take the value below zero — in particular on a
fresh counter — it fails with InvariantViolation and leaves the count
unchanged. -/
theorem c4_end_request (c : ServiceRequestsCounter) (name : String) :
    (0 < c.currentRequests →
      c.EndRequest =
        (EndResult.ok, { c with currentRequests := c.currentRequests - 1 })) ∧
    (c.currentRequests ≤ 0 →
      c.EndRequest = (EndResult.invariantViolation, c)) ∧
    (freshCounter name).EndRequest =
      (EndResult.invariantViolation, freshCounter name) := by
  unfold ServiceRequestsCounter.EndRequest freshCounter
  refine ⟨?_, ?_, by norm_num⟩
  · intro h
    rw [if_neg (by omega)]
  · intro h
    rw [if_pos (by omega)]

/-- Witness for C4: a decrement at count 2 and the fresh-counter failure. -/
theorem c4_end_request_witness :
    0 < (ServiceRequestsCounter.mk "s" (some 5) 2).currentRequests ∧
    (ServiceRequestsCounter.mk "s" (some 5) 2).EndRequest =
      (EndResult.ok, ServiceRequestsCounter.mk "s" (some 5) 1) ∧
    (freshCounter "t").EndRequest =
      (EndResult.invariantViolation, freshCounter "t") :=
  ⟨by norm_num, by
    have h := (c4_end_request (ServiceRequestsCounter.mk "s" (some 5) 2) "t").1
      (by norm_num)
    simpa using h,
    (c4_end_request (ServiceRequestsCounter.mk "s" (some 5) 2) "t").2.2⟩

/-- Claim C5: the count is non-negative initially and stays non-negative
under every sequence of StartRequest, EndRequest and UpdateCounter
operations, whether they succeed or fail: no reachable state is negative. -/
theorem c5_nonneg_invariant (name : String) (ops : List Op)
    (c : ServiceRequestsCounter) (hc : 0 ≤ c.currentRequests) :
    0 ≤ (freshCounter name).currentRequests ∧
    0 ≤ (execTally (freshCounter name) ops).2.2.currentRequests ∧
    0 ≤ (execTally c ops).2.2.currentRequests :=
  ⟨by simp [freshCounter],
    execTally_nonneg ops _ (by simp [freshCounter]),
    execTally_nonneg ops c hc⟩

/-- Witness for C5 on a short mixed schedule. -/
theorem c5_nonneg_invariant_witness :
    0 ≤ (ServiceRequestsCounter.mk "s" (some 1) 0).currentRequests ∧
    (0 ≤ (freshCounter "s").currentRequests ∧
      0 ≤ (execTally (freshCounter "s")
            [Op.start, Op.finish, Op.finish]).2.2.currentRequests ∧
      0 ≤ (execTally (ServiceRequestsCounter.mk "s" (some 1) 0)
            [Op.start, Op.finish, Op.finish]).2.2.currentRequests) :=
  ⟨by norm_num,
    c5_nonneg_invariant "s" [Op.start, Op.finish, Op.finish]
      (ServiceRequestsCounter.mk "s" (some 1) 0) (by norm_num)⟩

/-- Claim C6: UpdateCounter modifies only the bound field: the count and the
name are unchanged for every state and every new bound (including toggling
from enabled to disabled), and an already-admitted request still ends
normally: EndRequest after the update returns the same outcome and the same
resulting count as it would have before the update. -/
theorem c6_update_frame (c : ServiceRequestsCounter) (newBound : Option Nat) :
    (c.UpdateCounter newBound).currentRequests = c.currentRequests ∧
    (c.UpdateCounter newBound).ServiceName = c.ServiceName ∧
    (c.UpdateCounter newBound).bound = newBound ∧
    ((c.UpdateCounter newBound).EndRequest).1 = (c.EndRequest).1 ∧
    ((c.UpdateCounter newBound).EndRequest).2.currentRequests =
      (c.EndRequest).2.currentRequests := by
  refine ⟨rfl, rfl, rfl, ?_, ?_⟩ <;>
    · simp only [ServiceRequestsCounter.UpdateCounter,
        ServiceRequestsCounter.EndRequest]
      split <;> rfl

/-- Claim C7: Get returns the existing counter when an entry exists, and
otherwise creates, inserts and returns a counter with enforcement disabled
and a zero count; a second Get with the same name yields the identical
shared entry, and a StartRequest through one reference is observed through
the other. -/
theorem c7_registry_get_shared (reg : CounterRegistry) (name : String) :
    (∀ c, lookupEntry reg.services name = some c → reg.Get name = (c, reg)) ∧
    (lookupEntry reg.services name = none →
      (reg.Get name).1 = freshCounter name ∧ (reg.Get name).1.bound = none ∧
        (reg.Get name).1.currentRequests = 0) ∧
    (reg.Get name).2.Get name = ((reg.Get name).1, (reg.Get name).2) ∧
    (((reg.Get name).2.startRequest name).2.Get name).1 =
      ((reg.Get name).1.StartRequest).2 := by
  refine ⟨fun c h => Get_of_lookup reg name c h, ?_, ?_, ?_⟩
  · intro h
    unfold CounterRegistry.Get
    rw [h]
    exact ⟨rfl, rfl, rfl⟩
  · exact Get_of_lookup _ name _ (lookupEntry_Get reg name)
  · have hg : (reg.Get name).2.Get name = ((reg.Get name).1, (reg.Get name).2) :=
      Get_of_lookup _ name _ (lookupEntry_Get reg name)
    have hs : ((reg.Get name).2.startRequest name).2.services =
        updateEntry (reg.Get name).2.services name
          ((reg.Get name).1.StartRequest).2 := by
      unfold CounterRegistry.startRequest
      rw [hg]
    have hl : lookupEntry (((reg.Get name).2.startRequest name).2.services) name =
        some ((reg.Get name).1.StartRequest).2 := by
      rw [hs, lookupEntry_updateEntry, lookupEntry_Get]
      rfl
    rw [Get_of_lookup _ name _ hl]

/-- Witness for C7 on the empty registry and the name s. -/
theorem c7_registry_get_shared_witness :
    lookupEntry (CounterRegistry.mk []).services "s" = none ∧
    (((CounterRegistry.mk []).Get "s").1 = freshCounter "s" ∧
      ((CounterRegistry.mk []).Get "s").1.bound = none ∧
      ((CounterRegistry.mk []).Get "s").1.currentRequests = 0) ∧
    ((CounterRegistry.mk []).Get "s").2.Get "s" =
      (((CounterRegistry.mk []).Get "s").1, ((CounterRegistry.mk []).Get "s").2) ∧
    ((((CounterRegistry.mk []).Get "s").2.startRequest "s").2.Get "s").1 =
      (((CounterRegistry.mk []).Get "s").1.StartRequest).2 :=
  ⟨rfl, (c7_registry_get_shared (CounterRegistry.mk []) "s").2.1 rfl,
    (c7_registry_get_shared (CounterRegistry.mk []) "s").2.2.1,
    (c7_registry_get_shared (CounterRegistry.mk []) "s").2.2.2⟩

/-- Claim C8: UpdateCounter is idempotent: calling it twice in succession
with the same bound value yields exactly the same counter state as calling
it once, so all subsequent operations behave identically. -/
theorem c8_update_idempotent (c : ServiceRequestsCounter) (v : Option Nat) :
    (c.UpdateCounter v).UpdateCounter v = c.UpdateCounter v := rfl

end CircuitBreaking

namespace Grpclog

/-- The level resulting from apply is the applied level unless it is the
sentinel. -/
lemma apply_level (c d : ComponentData) :
    (c.apply d).level = if d.level ≠ sentinel then d.level else c.level := by
  unfold ComponentData.apply
  by_cases hv : d.verbosity ≠ sentinel <;> by_cases hl : d.level ≠ sentinel <;>
    simp [hv, hl]

/-- A cached component is returned as is, and the state is untouched. -/
lemma Component_cached (st : LogState) (name : String) (c : ComponentData)
    (h : lookupVar st.cache name = some c) : Component name st = (c, st) := by
  unfold Component
  rw [h]

/-- After a Component call the component is in the cache. -/
lemma lookupVar_Component (st : LogState) (name : String) :
    lookupVar (Component name st).2.cache name = some (Component name st).1 := by
  unfold Component
  cases h : lookupVar st.cache name with
  | some c => simpa using h
  | none => simp [lookupVar]

/-- Claim C9: the component registry is get-or-create with shared instances:
a second Component call with the same name returns exactly the cached
component and leaves the state untouched, it does so whatever the
environment-variable settings are at lookup time (settings are consulted
only at first creation), and at creation the exact-name setting is applied
after any wildcard setting, so a non-sentinel exact-name level wins. -/
theorem c9_component_registry (st : LogState) (name : String)
    (ev pv : List (String × ComponentData)) :
    Component name (Component name st).2 =
      ((Component name st).1, (Component name st).2) ∧
    Component name
        { (Component name st).2 with environmentVars := ev, prefixVars := pv } =
      ((Component name st).1,
        { (Component name st).2 with environmentVars := ev, prefixVars := pv }) ∧
    (∀ d, lookupVar st.cache name = none →
      lookupVar st.environmentVars name = some d → d.level ≠ sentinel →
      (Component name st).1.level = d.level) := by
  refine ⟨Component_cached _ name _ (lookupVar_Component st name), ?_, ?_⟩
  · exact Component_cached _ name _ (by simpa using lookupVar_Component st name)
  · intro d hc hd hdl
    simp only [Component, hc, hd]
    rw [apply_level]
    simp [hdl]

/-- Witness for C9: a fresh cache, one wildcard setting matching every name
at warning level, and an exact-name setting at error level; the created
component carries the error level. -/
theorem c9_component_registry_witness :
    (lookupVar (LogState.mk [("s", ComponentData.mk "s" sentinel levelError)]
        [("", ComponentData.mk "s*" sentinel levelWarning)] []).cache "s" = none) ∧
    (lookupVar (LogState.mk [("s", ComponentData.mk "s" sentinel levelError)]
        [("", ComponentData.mk "s*" sentinel levelWarning)] []).environmentVars "s" =
      some (ComponentData.mk "s" sentinel levelError)) ∧
    (ComponentData.mk "s" sentinel levelError).level ≠ sentinel ∧
    (Component "s" (LogState.mk [("s", ComponentData.mk "s" sentinel levelError)]
        [("", ComponentData.mk "s*" sentinel levelWarning)] [])).1.level =
      (ComponentData.mk "s" sentinel levelError).level :=
  ⟨rfl, rfl, by decide,
    (c9_component_registry
        (LogState.mk [("s", ComponentData.mk "s" sentinel levelError)]
          [("", ComponentData.mk "s*" sentinel levelWarning)] []) "s" [] []).2.2
      (ComponentData.mk "s" sentinel levelError) rfl rfl (by decide)⟩

/-- Claim C10: a component logger never suppresses error-severity output:
ErrorDepth and FatalDepth always emit the arguments tagged with the
bracketed component name, for every configured level, while InfoDepth emits
exactly when the level is at most info and WarningDepth exactly when it is
at most warning. -/
theorem c10_error_severity_never_suppressed (c : ComponentData) (depth : Int)
    (args : List String) :
    c.ErrorDepth depth args = some (depth, ("[" ++ c.name ++ "]") :: args) ∧
    c.FatalDepth depth args = some (depth, ("[" ++ c.name ++ "]") :: args) ∧
    (c.InfoDepth depth args = if c.level ≤ levelInfo then
        some (depth, ("[" ++ c.name ++ "]") :: args) else none) ∧
    (c.WarningDepth depth args = if c.level ≤ levelWarning then
        some (depth, ("[" ++ c.name ++ "]") :: args) else none) := by
  refine ⟨rfl, rfl, ?_, ?_⟩
  · unfold ComponentData.InfoDepth
    rcases lt_or_le levelInfo c.level with h | h
    · rw [if_pos h, if_neg (by omega)]
    · rw [if_neg (by omega), if_pos h]
  · unfold ComponentData.WarningDepth
    rcases lt_or_le levelWarning c.level with h | h
    · rw [if_pos h, if_neg (by omega)]
    · rw [if_neg (by omega), if_pos h]

end Grpclog
